import Mathlib

deriving instance DecidableEq for Except

/-!
# Verification of the SoccerScrapping harvesting core

A shallow embedding, in Lean 4, of the concurrent site-fetching engine of the
`SoccerScrapping` repository, together with theorems settling the frozen claims
about it.  The embedding covers:

* `src/scrapers/base_scraper.py` — the baseline scraper (`fetch`, `parse`,
  `scrape_url`, `save_results_to_json`);
* `src/scrapers/async_scraper.py` — the advanced scraper (`_fetch_url` with its
  retry/backoff loop, the semaphore discipline of `scrape_multiple_urls`,
  the per-site extractors such as `_parse_bbc_sport`, the aggregation loop of
  `scrape_all_soccer_sites`, and `save_results_to_json`);
* `src/utils/validators.py` — `validate_player_data`;
* the bulk-insert validation loop of `src/main.py` (interactive option 11).

HTML payloads are modelled as a flat list of elements (tag, CSS classes, text)
plus an optional page title; this is the view of a page that the scrapers
actually consume through BeautifulSoup (`find_all` by tag / class with an
optional limit, `get_text`, `.strip()`).  Wall-clock durations are natural
numbers of time units.  Exceptions are modelled as values (`Except`).
-/

namespace SoccerScrap

/-! ## Python string stripping

`str.strip()` removes leading and trailing whitespace.  We model it on the
character list underlying a `String`. -/

/-- Whitespace characters recognised by Python's `str.strip()`. -/
def isSpace (c : Char) : Bool :=
  c == ' ' || c == '\t' || c == '\n' || c == '\r' || c == '\x0b' || c == '\x0c'

/-- Strip leading and trailing whitespace from a character list. -/
def stripChars (l : List Char) : List Char :=
  ((l.dropWhile isSpace).reverse.dropWhile isSpace).reverse

/-- Model of Python's `str.strip()`. -/
def pstrip (s : String) : String :=
  ⟨stripChars s.data⟩

theorem dropWhile_head?_not {p : Char → Bool} :
    ∀ {l : List Char} {a : Char}, (l.dropWhile p).head? = some a → p a = false := by
  intro l
  induction l with
  | nil => intro a h; simp [List.dropWhile] at h
  | cons x xs ih =>
    intro a h
    rw [List.dropWhile_cons] at h
    by_cases hx : p x = true
    · rw [if_pos hx] at h; exact ih h
    · rw [if_neg hx] at h
      simp only [List.head?_cons, Option.some.injEq] at h
      subst h
      exact Bool.eq_false_iff.mpr hx

theorem stripChars_idem (l : List Char) : stripChars (stripChars l) = stripChars l := by
  unfold stripChars
  set m := l.dropWhile isSpace with hm
  set s := m.reverse.dropWhile isSpace with hs
  have h1 : s.reverse.dropWhile isSpace = s.reverse := by
    cases hsr : s.reverse with
    | nil => simp
    | cons a t =>
      have h2 : s.reverse.head? = some a := by rw [hsr]; rfl
      rw [List.head?_reverse] at h2
      have hsne : s ≠ [] := by
        intro h; rw [h] at hsr; simp at hsr
      obtain ⟨u, hu⟩ := (List.dropWhile_suffix (l := m.reverse) isSpace : s <:+ m.reverse)
      have h3 : (u ++ s).getLast? = s.getLast? := List.getLast?_append_of_ne_nil u hsne
      rw [hu, List.getLast?_reverse] at h3
      have h4 : m.head? = some a := by rw [h3]; exact h2
      have ha : isSpace a = false := dropWhile_head?_not (by rw [← hm] at *; exact h4)
      rw [List.dropWhile_cons, if_neg (by simp [ha])]
  rw [h1]
  rw [List.reverse_reverse, hs, List.dropWhile_idempotent]

theorem pstrip_idem (s : String) : pstrip (pstrip s) = pstrip s :=
  congrArg String.mk (stripChars_idem s.data)

theorem pstrip_eq_empty_iff (s : String) : pstrip s = "" ↔ stripChars s.data = [] := by
  constructor
  · intro h
    have := congrArg String.data h
    simpa [pstrip] using this
  · intro h
    show (⟨stripChars s.data⟩ : String) = ""
    rw [h]

/-! ## The page model

The scrapers see a page through BeautifulSoup as a soup of elements, each with
a tag name, a list of CSS classes and its text content, plus an optional
`<title>` text.  `find_all(tag, class_=c, limit=n)` is filtering by tag (and
class) followed by `take n`. -/

/-- One HTML element as consumed by the scrapers. -/
structure Element where
  tag : String
  classes : List String
  text : String
deriving DecidableEq

/-- A raw page payload. -/
structure Doc where
  title? : Option String
  elements : List Element
deriving DecidableEq

namespace BaseScraper

/-- One entry of the `articles` list built by `base_scraper.parse`: the Python
code appends `{"name": h3.get_text(strip=True), "age": 25, "club": "Unknown"}`
for every `<h3>` element. -/
structure Article where
  name : String
  age : Int
  club : String
deriving DecidableEq

/-- The record returned by `base_scraper.parse` on its normal path. -/
structure Parsed where
  title : String
  articles : List Article
deriving DecidableEq

/-- `base_scraper.AsyncSoccerScraper.parse` (src/scrapers/base_scraper.py,
lines 38-58).  The page title falls back to `"No title"`; every `<h3>` element
contributes one article with its stripped text and the constant extension
fields `age = 25`, `club = "Unknown"`.  The body is wrapped in
`try/except` in the source; none of its operations can fail on a parsed
payload, so the embedded body is total and the `except` branch is
unreachable. -/
def parse (d : Doc) : Parsed :=
  { title := d.title?.getD "No title"
  , articles :=
      (d.elements.filter (fun e => e.tag == "h3")).map
        (fun e => { name := pstrip e.text, age := 25, club := "Unknown" }) }

/-- The dictionary returned by `base_scraper.fetch`: either
`{"status": ..., "content": ..., "url": ...}` or `{"status": "error",
"error": ...}` when any exception was caught. -/
inductive FetchResp where
  | ok (status : Nat) (content : Doc) (url : String)
  | err (msg : String)
deriving DecidableEq

/-- One value of the `results` mapping built by `base_scraper.scrape_url`. -/
inductive Entry where
  | parsed (p : Parsed)
  | failure (msg : String)
deriving DecidableEq

/-- The entry `base_scraper.scrape_url` (lines 60-66) stores for a URL, as a
function of the fetch response: HTTP 200 yields the parse of the content,
anything else yields `{"error": result.get("error", "Failed to fetch")}` —
a non-200 numeric status carries no `"error"` key, so the default
`"Failed to fetch"` is used. -/
def scrape_url_entry (r : FetchResp) : Entry :=
  match r with
  | .ok status content _ => if status = 200 then .parsed (parse content) else .failure "Failed to fetch"
  | .err m => .failure m

/-- `base_scraper.scrape_multiple_urls` / `scrape_all_soccer_sites`: every URL
of the worklist is handed to `scrape_url`, which always records exactly one
entry for its URL in `self.results`.  `fetchOf` gives the fetch response per
URL. -/
def scrape_multiple_urls (urls : List String) (fetchOf : String → FetchResp) :
    List (String × Entry) :=
  urls.map (fun u => (u, scrape_url_entry (fetchOf u)))

/-- Default-resolved filename of `base_scraper.save_results_to_json`
(lines 81-83): the `filename` parameter defaults to the constant
`"results.json"`; no timestamp and no results directory are involved. -/
def save_filename (filename? : Option String) : String :=
  filename?.getD "results.json"

/-- Indentation used by `base_scraper.save_results_to_json`: `json.dump(...,
indent=4, ...)`. -/
def save_indent : Nat := 4

end BaseScraper

/-! ## `src/utils/validators.py` and the insert loop of `src/main.py` -/

/-- A dynamically-typed Python value as far as the validators inspect it:
a string, an integer, or `None`. -/
inductive PyVal where
  | str (s : String)
  | int (n : Int)
  | none
deriving DecidableEq

/-- A player dictionary restricted to the three keys the validators read;
`Option.none` models an absent key. -/
structure PlayerDict where
  name? : Option PyVal
  age? : Option PyVal
  club? : Option PyVal
deriving DecidableEq

/-- `validate_player_data` (src/utils/validators.py): first the presence loop
over `['name', 'age', 'club']`, then the name check (`isinstance(..., str)`
and non-empty after `.strip()`), then the club check, then the age check
(`isinstance(..., int)` and `> 0`).  `raise ValueError msg` is modelled as
`Except.error msg`. -/
def validate_player_data (p : PlayerDict) : Except String Unit :=
  if p.name?.isNone then .error "Missing required field: name"
  else if p.age?.isNone then .error "Missing required field: age"
  else if p.club?.isNone then .error "Missing required field: club"
  else
    match p.name? with
    | some (.str s) =>
      if pstrip s = "" then .error "Invalid player name"
      else
        match p.club? with
        | some (.str c) =>
          if pstrip c = "" then .error "Invalid player club"
          else
            match p.age? with
            | some (.int n) => if n ≤ 0 then .error "Invalid player age" else .ok ()
            | _ => .error "Invalid player age"
        | _ => .error "Invalid player club"
    | _ => .error "Invalid player name"

/-- A Python exception as raised by the local `validate` of `src/main.py`
(option 11): `ValueError` from the explicit checks, `KeyError` from the
subscript `p["age"]` when the key is absent. -/
inductive PyErr where
  | valueError (msg : String)
  | keyError (key : String)
deriving DecidableEq

/-- Python truthiness of an optionally-present value: absent, `None`, `""`
and `0` are falsy. -/
def truthy (v? : Option PyVal) : Bool :=
  match v? with
  | Option.none => false
  | some (.str s) => s != ""
  | some (.int n) => n != 0
  | some .none => false

/-- The local `validate` of `src/main.py` (lines 186-190): `p.get("name")`
truthiness, then `isinstance(p["age"], int) and p["age"] > 0` — where the
subscript raises `KeyError` if `"age"` is absent — then `p.get("club")`
truthiness. -/
def mainValidate (p : PlayerDict) : Except PyErr Unit :=
  if ¬ truthy p.name? then .error (.valueError "Missing name")
  else
    match p.age? with
    | Option.none => .error (.keyError "age")
    | some (.int n) =>
      if n ≤ 0 then .error (.valueError "Invalid age")
      else if ¬ truthy p.club? then .error (.valueError "Missing club")
      else .ok ()
    | some _ => .error (.valueError "Invalid age")

/-- The tuple `(p["name"], p["age"], p["club"])` appended for a record that
passed the local validation. -/
def extractTuple (p : PlayerDict) : PyVal × PyVal × PyVal :=
  (p.name?.getD .none, p.age?.getD .none, p.club?.getD .none)

/-- Whether the local validation raised a `KeyError` (which the loop's
`except ValueError` does not catch). -/
def isKeyErr (r : Except PyErr Unit) : Bool :=
  match r with
  | .error (.keyError _) => true
  | _ => false

/-- The insert loop of `src/main.py` option 11 (lines 192-197): each record is
validated; a `ValueError` is caught and the record skipped; a passing record
contributes its tuple; an uncaught `KeyError` aborts the loop. -/
def collect_valid (ps : List PlayerDict) : Except PyErr (List (PyVal × PyVal × PyVal)) :=
  match ps with
  | [] => .ok []
  | p :: rest =>
    match mainValidate p with
    | .ok () =>
      match collect_valid rest with
      | .ok ts => .ok (extractTuple p :: ts)
      | .error e => .error e
    | .error (.valueError _) => collect_valid rest
    | .error (.keyError k) => .error (.keyError k)

namespace AsyncScraper

/-- What one iteration of the retry loop of `_fetch_url` observes: an HTTP
response with a status and a body, a timeout (`asyncio.TimeoutError`), or any
other exception. -/
inductive AttemptResult where
  | response (status : Nat) (body : Doc)
  | timeout
  | exc (msg : String)

/-- Whether an attempt is a strict success (HTTP status 200). -/
def isSuccess200 (r : AttemptResult) : Bool :=
  match r with
  | .response s _ => s == 200
  | _ => false

/-- Whether an attempt outcome is one of the two exception branches
(`asyncio.TimeoutError` or a general `Exception`), after which the loop
sleeps `2 ** attempt` when a further attempt remains. -/
def isRetryable (r : AttemptResult) : Bool :=
  match r with
  | .timeout => true
  | .exc _ => true
  | .response _ _ => false

/-- The two reachable shapes of the `ScrapingResult` dataclass: every
construction site in `async_scraper.py` either sets `success=True` with a
payload and a status code, or `success=False` with an error string. -/
inductive Outcome where
  | ok (body : Doc) (status : Nat)
  | fail (err : String)
deriving DecidableEq

/-- Model of the `ScrapingResult` dataclass returned by `_fetch_url`,
instrumented with the trace the claims talk about: the number of loop
iterations executed (`attemptsMade`), the backoff sleeps performed in order
(`sleeps`), and the cumulative wall-clock time (`elapsed`, the sum of
per-attempt durations and backoff sleeps, i.e. `time.time() - start_time`). -/
structure FetchResult where
  url : String
  outcome : Outcome
  elapsed : Nat
  attemptsMade : Nat
  sleeps : List Nat
deriving DecidableEq

/-- The retry loop of `_fetch_url` (src/scrapers/async_scraper.py, lines
120-164).  `idxs` is the list of remaining attempt indices (`fetch_url` passes
`List.range maxRetries`, the loop `for attempt in range(max_retries)`);
`sleeps` and `elapsed` accumulate the trace; `dur i` is the wall-clock cost of
attempt `i` itself (request + response reading).  A 200 response returns a
success immediately; a non-200 response falls through to the next iteration
with no sleep; a timeout or other exception sleeps `2 ^ attempt` first, but
only when `attempt < max_retries - 1`.  When the loop is exhausted, the
failure result carries `"Failed after {max_retries} attempts"`. -/
def fetchAux (oracle : Nat → AttemptResult) (dur : Nat → Nat) (url : String)
    (maxRetries : Nat) : List Nat → List Nat → Nat → FetchResult
  | [], sleeps, elapsed =>
    { url := url
    , outcome := .fail ("Failed after " ++ toString maxRetries ++ " attempts")
    , elapsed := elapsed
    , attemptsMade := maxRetries
    , sleeps := sleeps }
  | i :: rest, sleeps, elapsed =>
    let e := elapsed + dur i
    match oracle i with
    | .response s body =>
      if s = 200 then
        { url := url, outcome := .ok body s, elapsed := e
        , attemptsMade := i + 1, sleeps := sleeps }
      else
        fetchAux oracle dur url maxRetries rest sleeps e
    | .timeout =>
      if i < maxRetries - 1 then
        fetchAux oracle dur url maxRetries rest (sleeps ++ [2 ^ i]) (e + 2 ^ i)
      else
        fetchAux oracle dur url maxRetries rest sleeps e
    | .exc _ =>
      if i < maxRetries - 1 then
        fetchAux oracle dur url maxRetries rest (sleeps ++ [2 ^ i]) (e + 2 ^ i)
      else
        fetchAux oracle dur url maxRetries rest sleeps e

/-- `_fetch_url(url, max_retries)`: run the retry loop over
`range(max_retries)` with empty accumulators.  The model never raises: all
failure paths are data, as in the source. -/
def fetch_url (oracle : Nat → AttemptResult) (dur : Nat → Nat) (url : String)
    (maxRetries : Nat) : FetchResult :=
  fetchAux oracle dur url maxRetries (List.range maxRetries) [] 0

/-- The attempt indices the loop actually executes: every index up to and
including the first strict success. -/
def attemptsRun (oracle : Nat → AttemptResult) : List Nat → List Nat
  | [] => []
  | i :: rest => i :: (if isSuccess200 (oracle i) then [] else attemptsRun oracle rest)

/-- Modelled from the spec sentence this claim is checked against: the backoff
sleeps a run should perform — `2 ^ i` exactly for the executed attempts `i`
that ended in a timeout or transport error and were not the final attempt. -/
def backoffSpec (oracle : Nat → AttemptResult) (maxRetries : Nat) : List Nat :=
  ((attemptsRun oracle (List.range maxRetries)).filter
    (fun i => isRetryable (oracle i) && decide (i < maxRetries - 1))).map (fun i => 2 ^ i)

/-- The dictionary built by `_parse_bbc_sport` (lines 204-228). -/
structure BbcParsed where
  site : String
  title : String
  articles : List String
  matchList : List String
  headlines : List String
deriving DecidableEq

/-- `_parse_bbc_sport`: title with `"No title"` fallback; articles from
`find_all('h3', class_='gs-c-promo-heading__title', limit=10)`, keeping the
stripped text of each match when it is non-empty; headlines likewise from
`find_all('h2', limit=5)`.  The `matches` key stays empty (named `matchList`
here). -/
def parse_bbc_sport (d : Doc) : BbcParsed :=
  { site := "BBC Sport"
  , title := d.title?.getD "No title"
  , articles :=
      ((d.elements.filter
          (fun e => e.tag == "h3" && e.classes.contains "gs-c-promo-heading__title")).take 10).filterMap
        (fun e => if pstrip e.text = "" then Option.none else some (pstrip e.text))
  , matchList := []
  , headlines :=
      ((d.elements.filter (fun e => e.tag == "h2")).take 5).filterMap
        (fun e => if pstrip e.text = "" then Option.none else some (pstrip e.text)) }

/-- One configured entry of `self.soccer_sites`: a target URL and the parsing
function registered for the site.  Parsers are dynamically typed in the
source (`Dict[str, Any]`), hence the payload type parameter; a parser that
raises on a payload is an `Except.error` carrying `str(e)`. -/
structure SiteInfo (α : Type) where
  url : String
  parseFn : Doc → Except String α

/-- The `scraping_info` block attached to every aggregated entry (the
wall-clock capture `timestamp` field is not modelled). -/
structure ScrapeInfo where
  responseTime : Nat
  statusCode : Option Nat
deriving DecidableEq

/-- One value of the `parsed_data` report built by `scrape_all_soccer_sites`:
either the parser's record plus `scraping_info`, or `{"error": str(e),
"scraping_info": ...}` when the parser raised. -/
inductive SiteEntry (α : Type) where
  | parsed (payload : α) (info : ScrapeInfo)
  | failed (err : String) (info : ScrapeInfo)
deriving DecidableEq

/-- The lookup loop `for name, site_info in self.soccer_sites.items(): if
site_info['url'] == result.url: ... break` — the first configured site whose
URL matches. -/
def findSite {α : Type} (sites : List (String × SiteInfo α)) (url : String) :
    Option (String × SiteInfo α) :=
  sites.find? (fun s => s.2.url == url)

/-- The status code recorded for a fetch result (`result.status_code`):
present on success, `None` on failure. -/
def statusOf (o : Outcome) : Option Nat :=
  match o with
  | .ok _ s => some s
  | .fail _ => Option.none

/-- The aggregation loop of `scrape_all_soccer_sites` (lines 322-357): for
each raw result in order, a failed fetch is only logged — no report entry is
created; a successful fetch is matched back to its site by URL, and the
site's parser either yields an entry or, if it raises, an error entry
carrying `str(e)`. -/
def aggregate {α : Type} (sites : List (String × SiteInfo α)) :
    List FetchResult → List (String × SiteEntry α)
  | [] => []
  | r :: rest =>
    match r.outcome with
    | .ok doc status =>
      (match findSite sites r.url with
       | some (name, info) =>
         (match info.parseFn doc with
          | .ok payload =>
            (name, .parsed payload ⟨r.elapsed, some status⟩) :: aggregate sites rest
          | .error e =>
            (name, .failed e ⟨r.elapsed, some status⟩) :: aggregate sites rest)
       | Option.none => aggregate sites rest)
    | .fail _ => aggregate sites rest

/-- The fetch result obtained for one configured site: `_fetch_url` on the
site's URL, with that URL's attempt oracle and duration oracle. -/
def resultFor {α : Type} (oracles : String → Nat → AttemptResult)
    (durs : String → Nat → Nat) (maxRetries : Nat) (s : String × SiteInfo α) : FetchResult :=
  fetch_url (oracles s.2.url) (durs s.2.url) s.2.url maxRetries

/-- `scrape_all_soccer_sites` (lines 310-358): fetch every configured URL
(`scrape_multiple_urls` dispatches them in worklist order and `asyncio.gather`
returns the results in that same order; the fetches never raise, so the
exception filter passes everything through), then run the aggregation loop. -/
def scrape_all_soccer_sites {α : Type} (sites : List (String × SiteInfo α))
    (oracles : String → Nat → AttemptResult) (durs : String → Nat → Nat)
    (maxRetries : Nat) : List (String × SiteEntry α) :=
  aggregate sites (sites.map (resultFor oracles durs maxRetries))

/-- The report entry a single site contributes, as a function of nothing but
its own parser and its own fetch result: `none` when the fetch failed. -/
def entryOf {α : Type} (s : String × SiteInfo α) (r : FetchResult) :
    Option (String × SiteEntry α) :=
  match r.outcome with
  | .ok doc status =>
    some (s.1,
      match s.2.parseFn doc with
      | .ok payload => .parsed payload ⟨r.elapsed, some status⟩
      | .error e => .failed e ⟨r.elapsed, some status⟩)
  | .fail _ => Option.none

/-- Whether a fetch result is a success. -/
def isOkResult (r : FetchResult) : Bool :=
  match r.outcome with
  | .ok _ _ => true
  | .fail _ => false

/-- Decimal rendering of the integer timestamp, as produced by the f-string
`f"soccer_scraping_results_{timestamp}.json"` interpolating
`int(time.time())`. -/
def decimalRepr (n : Nat) : String :=
  if n = 0 then "0" else ⟨((Nat.digits 10 n).reverse.map Nat.digitChar)⟩

/-- Default-resolved filename of `async_scraper.save_results_to_json`
(lines 360-383): `f"soccer_scraping_results_{timestamp}.json"` when the
caller supplies no filename. -/
def save_filename (filename? : Option String) (timestamp : Nat) : String :=
  filename?.getD ("soccer_scraping_results_" ++ decimalRepr timestamp ++ ".json")

/-- The results directory the snapshot is written under:
`Path("data/scraping_results")`. -/
def save_dir : String := "data/scraping_results"

/-- Indentation of the snapshot: `json.dump(..., indent=2, ...)`. -/
def save_indent : Nat := 2

/-- Encoding of the snapshot file: `open(filepath, 'w', encoding='utf-8')`. -/
def save_encoding : String := "utf-8"

end AsyncScraper

/-! ## The concurrency limiter of `scrape_multiple_urls`

`scrape_multiple_urls` (src/scrapers/async_scraper.py, lines 166-202) runs
one task per URL:

    async def scrape_with_limit(url):
        async with semaphore:              -- semaphore = asyncio.Semaphore(C)
            await asyncio.sleep(self.delay_between_requests)
            return await self._fetch_url(url)

We model each task's progress through this block as a phase, and the
cooperative scheduler as an interleaving step relation.  A task holds a
semaphore slot during both its inter-dispatch delay and its fetch; the
semaphore admits a task only while fewer than `C` slots are held. -/

/-- Where one `scrape_with_limit` task is in its life cycle: waiting to enter
the semaphore, sleeping the inter-dispatch delay, running `_fetch_url`, or
finished (slot released). -/
inductive Phase where
  | waiting
  | delaying
  | fetching
  | done
deriving DecidableEq

/-- Number of semaphore slots held: tasks inside the `async with` block. -/
def holders (ts : List Phase) : Nat :=
  ts.countP (fun p => decide (p = Phase.delaying) || decide (p = Phase.fetching))

/-- Number of fetches in flight. -/
def fetchingCount (ts : List Phase) : Nat :=
  ts.countP (fun p => decide (p = Phase.fetching))

/-- One scheduler step of the limiter with concurrency cap `C`: a waiting
task may enter the semaphore only while fewer than `C` slots are held (it
then starts its delay); a delaying task's sleep may elapse, starting its
fetch; a fetching task may complete, releasing its slot. -/
inductive LimiterStep (C : Nat) : List Phase → List Phase → Prop where
  | acquire (ts : List Phase) (i : Nat) (h : ts[i]? = some Phase.waiting)
      (hc : holders ts < C) : LimiterStep C ts (ts.set i Phase.delaying)
  | startFetch (ts : List Phase) (i : Nat) (h : ts[i]? = some Phase.delaying) :
      LimiterStep C ts (ts.set i Phase.fetching)
  | finish (ts : List Phase) (i : Nat) (h : ts[i]? = some Phase.fetching) :
      LimiterStep C ts (ts.set i Phase.done)

/-- States reachable by the limiter on a worklist of `n` URLs: every task
starts waiting. -/
def LimiterReachable (C n : Nat) (ts : List Phase) : Prop :=
  Relation.ReflTransGen (LimiterStep C) (List.replicate n Phase.waiting) ts

theorem countP_set_eq (q : Phase → Bool) :
    ∀ (l : List Phase) (i : Nat) (a v : Phase), l[i]? = some a →
      (l.set i v).countP q + (if q a then 1 else 0) =
        l.countP q + (if q v then 1 else 0) := by
  intro l
  induction l with
  | nil => intro i a v h; simp at h
  | cons b t ih =>
    intro i a v h
    cases i with
    | zero =>
      simp only [List.getElem?_cons_zero, Option.some.injEq] at h
      subst h
      simp only [List.set_cons_zero, List.countP_cons]
      omega
    | succ j =>
      simp only [List.getElem?_cons_succ] at h
      simp only [List.set_cons_succ, List.countP_cons]
      have := ih j a v h
      omega

theorem holders_le_of_step {C : Nat} {ts ts' : List Phase}
    (hstep : LimiterStep C ts ts') (h : holders ts ≤ C) : holders ts' ≤ C := by
  cases hstep with
  | acquire i hi hc =>
    have := countP_set_eq
      (fun p => decide (p = Phase.delaying) || decide (p = Phase.fetching))
      ts i Phase.waiting Phase.delaying hi
    simp only [holders] at *
    simp at this
    omega
  | startFetch i hi =>
    have := countP_set_eq
      (fun p => decide (p = Phase.delaying) || decide (p = Phase.fetching))
      ts i Phase.delaying Phase.fetching hi
    simp only [holders] at *
    simp at this
    omega
  | finish i hi =>
    have := countP_set_eq
      (fun p => decide (p = Phase.delaying) || decide (p = Phase.fetching))
      ts i Phase.fetching Phase.done hi
    simp only [holders] at *
    simp at this
    omega

theorem holders_le_of_reachable {C n : Nat} {ts : List Phase}
    (h : LimiterReachable C n ts) : holders ts ≤ C := by
  induction h with
  | refl =>
    have h0 : holders (List.replicate n Phase.waiting) = 0 := by
      rw [holders, List.countP_eq_zero]
      intro p hp
      simp [List.eq_of_mem_replicate hp]
    omega
  | tail _ hstep ih => exact holders_le_of_step hstep ih

/-! ## Claims about the retry loop (C2, C3) -/

theorem fetchAux_sleeps (oracle : Nat → AsyncScraper.AttemptResult) (dur : Nat → Nat)
    (url : String) (mr : Nat) :
    ∀ (idxs sleeps : List Nat) (elapsed : Nat),
      (AsyncScraper.fetchAux oracle dur url mr idxs sleeps elapsed).sleeps =
        sleeps ++ ((AsyncScraper.attemptsRun oracle idxs).filter
          (fun i => AsyncScraper.isRetryable (oracle i) && decide (i < mr - 1))).map
            (fun i => 2 ^ i) := by
  intro idxs
  induction idxs with
  | nil =>
    intro sleeps elapsed
    simp [AsyncScraper.fetchAux, AsyncScraper.attemptsRun]
  | cons i rest ih =>
    intro sleeps elapsed
    cases h : oracle i with
    | response s body =>
      by_cases hs : s = 200
      · subst hs
        simp [AsyncScraper.fetchAux, h, AsyncScraper.attemptsRun,
          AsyncScraper.isSuccess200, AsyncScraper.isRetryable]
      · simp only [AsyncScraper.fetchAux, h, if_neg hs]
        rw [ih]
        have hns : AsyncScraper.isSuccess200 (oracle i) = false := by
          simp [h, AsyncScraper.isSuccess200, hs]
        have hnr : AsyncScraper.isRetryable (oracle i) = false := by
          simp [h, AsyncScraper.isRetryable]
        simp [AsyncScraper.attemptsRun, hns, hnr]
    | timeout =>
      have hns : AsyncScraper.isSuccess200 (oracle i) = false := by
        simp [h, AsyncScraper.isSuccess200]
      have hr : AsyncScraper.isRetryable (oracle i) = true := by
        simp [h, AsyncScraper.isRetryable]
      by_cases hi : i < mr - 1
      · simp only [AsyncScraper.fetchAux, h, if_pos hi]
        rw [ih]
        simp [AsyncScraper.attemptsRun, hns, hr, hi]
      · simp only [AsyncScraper.fetchAux, h, if_neg hi]
        rw [ih]
        simp [AsyncScraper.attemptsRun, hns, hr, hi]
    | exc m =>
      have hns : AsyncScraper.isSuccess200 (oracle i) = false := by
        simp [h, AsyncScraper.isSuccess200]
      have hr : AsyncScraper.isRetryable (oracle i) = true := by
        simp [h, AsyncScraper.isRetryable]
      by_cases hi : i < mr - 1
      · simp only [AsyncScraper.fetchAux, h, if_pos hi]
        rw [ih]
        simp [AsyncScraper.attemptsRun, hns, hr, hi]
      · simp only [AsyncScraper.fetchAux, h, if_neg hi]
        rw [ih]
        simp [AsyncScraper.attemptsRun, hns, hr, hi]

/-- C2 counterexample.  The claim says a non-200 HTTP response is treated
exactly like a transport error or timeout, with a `2 ^ attempt` wait before
the next attempt.  In the code the backoff sleep sits only in the two
`except` branches: with `max_retries = 3`, a URL that always returns
HTTP 404 produces a run with no sleeps at all (though all three attempts
are consumed), while a URL that always times out sleeps `[2^0, 2^1]`. -/
theorem c2_counterexample :
    (AsyncScraper.fetch_url (fun _ => .response 404 ⟨Option.none, []⟩) (fun _ => 0) "u" 3).sleeps
        = []
    ∧ (AsyncScraper.fetch_url (fun _ => .timeout) (fun _ => 0) "u" 3).sleeps = [1, 2]
    ∧ (AsyncScraper.fetch_url (fun _ => .response 404 ⟨Option.none, []⟩) (fun _ => 0) "u" 3).attemptsMade
        = 3 :=
  ⟨rfl, rfl, rfl⟩

/-- C2, amended.  In `_fetch_url`, an HTTP response with any status other
than 200 consumes one attempt and the loop proceeds immediately to the next
attempt with no wait; the `2 ^ attempt` backoff sleep (attempt indices from
0) is performed exactly after those executed attempts that ended in a
timeout or transport error and were not the final attempt of the budget. -/
theorem c2_backoff (oracle : Nat → AsyncScraper.AttemptResult) (dur : Nat → Nat)
    (url : String) (mr : Nat) :
    (AsyncScraper.fetch_url oracle dur url mr).sleeps = AsyncScraper.backoffSpec oracle mr := by
  rw [AsyncScraper.fetch_url, AsyncScraper.backoffSpec, fetchAux_sleeps]
  simp

theorem fetchAux_all_fail (oracle : Nat → AsyncScraper.AttemptResult) (dur : Nat → Nat)
    (url : String) (mr : Nat) :
    ∀ (idxs sleeps : List Nat) (elapsed : Nat),
      (∀ i ∈ idxs, AsyncScraper.isSuccess200 (oracle i) = false) →
      sleeps.sum ≤ elapsed →
      (AsyncScraper.fetchAux oracle dur url mr idxs sleeps elapsed).outcome =
          .fail ("Failed after " ++ toString mr ++ " attempts")
        ∧ (AsyncScraper.fetchAux oracle dur url mr idxs sleeps elapsed).attemptsMade = mr
        ∧ (AsyncScraper.fetchAux oracle dur url mr idxs sleeps elapsed).sleeps.sum ≤
            (AsyncScraper.fetchAux oracle dur url mr idxs sleeps elapsed).elapsed := by
  intro idxs
  induction idxs with
  | nil =>
    intro sleeps elapsed _ hle
    exact ⟨rfl, rfl, hle⟩
  | cons i rest ih =>
    intro sleeps elapsed hfail hle
    have hi : AsyncScraper.isSuccess200 (oracle i) = false := hfail i (by simp)
    have hrest : ∀ j ∈ rest, AsyncScraper.isSuccess200 (oracle j) = false := by
      intro j hj; exact hfail j (by simp [hj])
    cases h : oracle i with
    | response s body =>
      have hs : s ≠ 200 := by
        intro hcon
        rw [h, AsyncScraper.isSuccess200, hcon] at hi
        simp at hi
      simp only [AsyncScraper.fetchAux, h, if_neg hs]
      exact ih sleeps (elapsed + dur i) hrest (le_trans hle (Nat.le_add_right _ _))
    | timeout =>
      by_cases hlt : i < mr - 1
      · simp only [AsyncScraper.fetchAux, h, if_pos hlt]
        refine ih _ _ hrest ?_
        rw [List.sum_append]
        simp
        omega
      · simp only [AsyncScraper.fetchAux, h, if_neg hlt]
        exact ih sleeps (elapsed + dur i) hrest (le_trans hle (Nat.le_add_right _ _))
    | exc m =>
      by_cases hlt : i < mr - 1
      · simp only [AsyncScraper.fetchAux, h, if_pos hlt]
        refine ih _ _ hrest ?_
        rw [List.sum_append]
        simp
        omega
      · simp only [AsyncScraper.fetchAux, h, if_neg hlt]
        exact ih sleeps (elapsed + dur i) hrest (le_trans hle (Nat.le_add_right _ _))

/-- C3.  If every attempt fails (no attempt yields HTTP 200), `_fetch_url`
runs exactly `maxRetries` loop iterations and returns — never raises, the
model being a total function — a failure outcome whose reason is
`"Failed after N attempts"` with `N = maxRetries`, and whose elapsed time is
at least the sum of the backoff delays slept between attempts. -/
theorem c3_fetch_failure (oracle : Nat → AsyncScraper.AttemptResult) (dur : Nat → Nat)
    (url : String) (mr : Nat)
    (h : ∀ i < mr, AsyncScraper.isSuccess200 (oracle i) = false) :
    (AsyncScraper.fetch_url oracle dur url mr).outcome =
        .fail ("Failed after " ++ toString mr ++ " attempts")
      ∧ (AsyncScraper.fetch_url oracle dur url mr).attemptsMade = mr
      ∧ (AsyncScraper.fetch_url oracle dur url mr).sleeps.sum ≤
          (AsyncScraper.fetch_url oracle dur url mr).elapsed := by
  rw [AsyncScraper.fetch_url]
  exact fetchAux_all_fail oracle dur url mr (List.range mr) [] 0
    (fun i hi => h i (List.mem_range.mp hi)) (le_refl 0)

/-- Witness for C3 at a concrete always-timing-out URL with a retry budget
of 2. -/
theorem c3_fetch_failure_witness :
    (∀ i < 2, AsyncScraper.isSuccess200 ((fun _ => AsyncScraper.AttemptResult.timeout) i) = false)
    ∧ ((AsyncScraper.fetch_url (fun _ => .timeout) (fun _ => 0) "u" 2).outcome =
          .fail ("Failed after " ++ toString 2 ++ " attempts")
        ∧ (AsyncScraper.fetch_url (fun _ => .timeout) (fun _ => 0) "u" 2).attemptsMade = 2
        ∧ (AsyncScraper.fetch_url (fun _ => .timeout) (fun _ => 0) "u" 2).sleeps.sum ≤
            (AsyncScraper.fetch_url (fun _ => .timeout) (fun _ => 0) "u" 2).elapsed) :=
  ⟨by decide, c3_fetch_failure (fun _ => .timeout) (fun _ => 0) "u" 2 (by decide)⟩

/-! ## Claims about extraction (C4, C5, C10) -/

/-- An input payload containing eleven `<h3>` elements, one of which has
whitespace-only text. -/
def elevenHeadings : Doc :=
  ⟨Option.none,
   [⟨"h3", [], " "⟩, ⟨"h3", [], "a1"⟩, ⟨"h3", [], "a2"⟩, ⟨"h3", [], "a3"⟩,
    ⟨"h3", [], "a4"⟩, ⟨"h3", [], "a5"⟩, ⟨"h3", [], "a6"⟩, ⟨"h3", [], "a7"⟩,
    ⟨"h3", [], "a8"⟩, ⟨"h3", [], "a9"⟩, ⟨"h3", [], "a10"⟩]⟩

/-- C4 counterexample.  The claim says baseline extraction collects at most
10 heading snippets and never includes one that is empty after trimming.
The baseline `base_scraper.parse` iterates `soup.find_all('h3')` with no
`limit` and appends every heading's stripped text unconditionally: a payload
with eleven `<h3>` elements, one whitespace-only, yields eleven articles,
including one whose name is empty. -/
theorem c4_counterexample :
    (BaseScraper.parse elevenHeadings).articles.length = 11
    ∧ (⟨"", 25, "Unknown"⟩ : BaseScraper.Article) ∈ (BaseScraper.parse elevenHeadings).articles := by
  decide

/-- C4, amended.  The bounded, empties-discarded collection described by the
claim is what the per-site extractors of `async_scraper.py` do
(`_parse_bbc_sport` collects at most 10 articles, each stripped of
surrounding whitespace and non-empty); the baseline `base_scraper.parse`
instead collects one article per `<h3>` element of the payload without any
bound, keeping whitespace-only headings as empty names. -/
theorem c4_extraction_bounds (d : Doc) :
    (AsyncScraper.parse_bbc_sport d).articles.length ≤ 10
    ∧ (∀ a ∈ (AsyncScraper.parse_bbc_sport d).articles, pstrip a = a ∧ a ≠ "")
    ∧ (BaseScraper.parse d).articles.length =
        (d.elements.filter (fun e => e.tag == "h3")).length := by
  refine ⟨?_, ?_, ?_⟩
  · calc (AsyncScraper.parse_bbc_sport d).articles.length
        ≤ ((d.elements.filter
            (fun e => e.tag == "h3" && e.classes.contains "gs-c-promo-heading__title")).take 10).length :=
          List.length_filterMap_le _ _
      _ ≤ 10 := by rw [List.length_take]; exact min_le_left _ _
  · intro a ha
    simp only [AsyncScraper.parse_bbc_sport, List.mem_filterMap] at ha
    obtain ⟨e, _, he⟩ := ha
    by_cases hp : pstrip e.text = ""
    · rw [if_pos hp] at he; exact absurd he (by simp)
    · rw [if_neg hp] at he
      have : a = pstrip e.text := by
        simpa using he.symm
      subst this
      exact ⟨pstrip_idem e.text, hp⟩
  · simp [BaseScraper.parse]

/-- Witness for C4 (amended) at the empty payload. -/
theorem c4_extraction_bounds_witness :
    (AsyncScraper.parse_bbc_sport ⟨Option.none, []⟩).articles.length ≤ 10
    ∧ (∀ a ∈ (AsyncScraper.parse_bbc_sport ⟨Option.none, []⟩).articles, pstrip a = a ∧ a ≠ "")
    ∧ (BaseScraper.parse ⟨Option.none, []⟩).articles.length =
        ((⟨Option.none, []⟩ : Doc).elements.filter (fun e => e.tag == "h3")).length :=
  c4_extraction_bounds ⟨Option.none, []⟩

/-- C5.  A payload with zero heading elements and no title element extracts
successfully, to a record with title `"No title"` and an empty articles
collection, both in the baseline `base_scraper.parse` and in
`_parse_bbc_sport` (where the headlines collection is also empty). -/
theorem c5_no_headings (d : Doc)
    (hh : ∀ e ∈ d.elements, e.tag ≠ "h3" ∧ e.tag ≠ "h2")
    (ht : d.title? = Option.none) :
    BaseScraper.parse d = ⟨"No title", []⟩
    ∧ AsyncScraper.parse_bbc_sport d = ⟨"BBC Sport", "No title", [], [], []⟩ := by
  have hf3 : d.elements.filter (fun e => e.tag == "h3") = [] := by
    rw [List.filter_eq_nil_iff]
    intro e he
    simp only [beq_iff_eq]
    exact (hh e he).1
  have hf2 : d.elements.filter (fun e => e.tag == "h2") = [] := by
    rw [List.filter_eq_nil_iff]
    intro e he
    simp only [beq_iff_eq]
    exact (hh e he).2
  have hfb : d.elements.filter
      (fun e => e.tag == "h3" && e.classes.contains "gs-c-promo-heading__title") = [] := by
    rw [List.filter_eq_nil_iff]
    intro e he
    simp only [Bool.and_eq_true, beq_iff_eq, not_and]
    intro hcon
    exact absurd hcon (hh e he).1
  constructor
  · simp [BaseScraper.parse, hf3, ht]
  · simp only [AsyncScraper.parse_bbc_sport]
    rw [hfb, hf2]
    simp [ht]

/-- Witness for C5 at the empty payload. -/
theorem c5_no_headings_witness :
    (∀ e ∈ (⟨Option.none, []⟩ : Doc).elements, e.tag ≠ "h3" ∧ e.tag ≠ "h2")
    ∧ (⟨Option.none, []⟩ : Doc).title? = Option.none
    ∧ (BaseScraper.parse ⟨Option.none, []⟩ = ⟨"No title", []⟩
        ∧ AsyncScraper.parse_bbc_sport ⟨Option.none, []⟩ = ⟨"BBC Sport", "No title", [], [], []⟩) :=
  ⟨by simp, rfl, c5_no_headings ⟨Option.none, []⟩ (by simp) rfl⟩

/-- C10.  Every article the baseline `base_scraper.parse` produces carries
the constant extension fields `age = 25` and `club = "Unknown"`, whatever
the payload; consequently any such article with a non-empty name passes
`validate_player_data` (its name is already stripped, its club is non-blank,
its age is a positive integer). -/
theorem c10_baseline_articles (d : Doc) (a : BaseScraper.Article)
    (ha : a ∈ (BaseScraper.parse d).articles) :
    a.age = 25 ∧ a.club = "Unknown"
    ∧ (a.name ≠ "" →
        validate_player_data ⟨some (.str a.name), some (.int a.age), some (.str a.club)⟩ = .ok ()) := by
  simp only [BaseScraper.parse, List.mem_map] at ha
  obtain ⟨e, _, he⟩ := ha
  subst he
  refine ⟨rfl, rfl, ?_⟩
  intro hne
  simp only [validate_player_data]
  have h1 : pstrip (pstrip e.text) = pstrip e.text := pstrip_idem e.text
  have h2 : pstrip "Unknown" = "Unknown" := by decide
  simp only at hne
  simp [h1, h2, hne]

/-- Witness for C10 at a one-heading payload. -/
theorem c10_baseline_articles_witness :
    (⟨"Messi", 25, "Unknown"⟩ : BaseScraper.Article)
        ∈ (BaseScraper.parse ⟨Option.none, [⟨"h3", [], "Messi"⟩]⟩).articles
    ∧ ((⟨"Messi", 25, "Unknown"⟩ : BaseScraper.Article).age = 25
        ∧ (⟨"Messi", 25, "Unknown"⟩ : BaseScraper.Article).club = "Unknown"
        ∧ ((⟨"Messi", 25, "Unknown"⟩ : BaseScraper.Article).name ≠ "" →
            validate_player_data
              ⟨some (.str (⟨"Messi", 25, "Unknown"⟩ : BaseScraper.Article).name),
               some (.int (⟨"Messi", 25, "Unknown"⟩ : BaseScraper.Article).age),
               some (.str (⟨"Messi", 25, "Unknown"⟩ : BaseScraper.Article).club)⟩ = .ok ())) :=
  ⟨by decide, c10_baseline_articles ⟨Option.none, [⟨"h3", [], "Messi"⟩]⟩ _ (by decide)⟩

/-! ## Claims about record validation (C8) -/

/-- C8 counterexample.  The claim states `validate_player_data` raises if and
only if the record lacks a non-empty string name, a non-empty string club, or
a positive integer age.  The record `{"name": " ", "age": 25, "club":
"Arsenal"}` has a non-empty string name, a positive integer age and a
non-empty string club, yet the code raises `ValueError("Invalid player
name")`, because the check is `player['name'].strip()`: non-empty is not
enough, the name must be non-blank. -/
theorem c8_counterexample :
    validate_player_data ⟨some (.str " "), some (.int 25), some (.str "Arsenal")⟩ =
        .error "Invalid player name"
    ∧ (" " : String) ≠ ""
    ∧ ("Arsenal" : String) ≠ ""
    ∧ (25 : Int) > 0 := by
  decide

/-- C8, amended.  `validate_player_data` succeeds if and only if the record
has a string name that is non-empty after stripping whitespace, a string club
non-empty after stripping whitespace, and a positive integer age — and raises
`ValueError` otherwise.  In the insert loop of `src/main.py`, a record whose
validation raises `ValueError` is skipped (it contributes nothing to the
forwarded tuples) without aborting the loop, and every passing record is
forwarded: provided no record triggers the loop's uncaught `KeyError` path
(a truthy name with no `"age"` key), the loop returns exactly the tuples of
the records that pass. -/
theorem c8_validation (p : PlayerDict) (ps : List PlayerDict)
    (hk : ∀ q ∈ ps, isKeyErr (mainValidate q) = false) :
    (validate_player_data p = .ok () ↔
      (∃ s, p.name? = some (.str s) ∧ pstrip s ≠ "")
      ∧ (∃ c, p.club? = some (.str c) ∧ pstrip c ≠ "")
      ∧ (∃ n, p.age? = some (.int n) ∧ 0 < n))
    ∧ collect_valid ps =
        .ok ((ps.filter (fun q => decide (mainValidate q = .ok ()))).map extractTuple) := by
  constructor
  · obtain ⟨n?, a?, c?⟩ := p
    simp only [validate_player_data]
    rcases n? with _ | nv <;> rcases a? with _ | av <;> rcases c? with _ | cv <;>
      try simp
    cases nv <;> cases av <;> cases cv <;>
      simp <;> split_ifs <;> simp_all
  · induction ps with
    | nil => rfl
    | cons q rest ih =>
      have hkq : isKeyErr (mainValidate q) = false := hk q (by simp)
      have hkr : ∀ r ∈ rest, isKeyErr (mainValidate r) = false := by
        intro r hr; exact hk r (by simp [hr])
      cases hq : mainValidate q with
      | ok u =>
        cases u
        simp only [collect_valid, hq, ih hkr, List.filter_cons]
        rw [if_pos (by simp [hq])]
        simp
      | error e =>
        cases e with
        | valueError m =>
          simp only [collect_valid, hq, ih hkr, List.filter_cons]
          rw [if_neg (by simp [hq])]
        | keyError k =>
          rw [hq, isKeyErr] at hkq
          simp at hkq

/-- Witness for C8 at the sample records of `src/main.py` option 11: the
well-formed Haaland record is forwarded, the `{"name": "", "age": -1,
"club": None}` record is skipped, and the loop completes. -/
theorem c8_validation_witness :
    (∀ q ∈ [(⟨some (.str "Erling Haaland"), some (.int 23), some (.str "Manchester City")⟩ : PlayerDict),
            ⟨some (.str ""), some (.int (-1)), some PyVal.none⟩],
        isKeyErr (mainValidate q) = false)
    ∧ ((validate_player_data ⟨some (.str "Erling Haaland"), some (.int 23), some (.str "Manchester City")⟩ = .ok () ↔
        (∃ s, (⟨some (.str "Erling Haaland"), some (.int 23), some (.str "Manchester City")⟩ : PlayerDict).name?
            = some (.str s) ∧ pstrip s ≠ "")
        ∧ (∃ c, (⟨some (.str "Erling Haaland"), some (.int 23), some (.str "Manchester City")⟩ : PlayerDict).club?
            = some (.str c) ∧ pstrip c ≠ "")
        ∧ (∃ n, (⟨some (.str "Erling Haaland"), some (.int 23), some (.str "Manchester City")⟩ : PlayerDict).age?
            = some (.int n) ∧ 0 < n))
      ∧ collect_valid
          [⟨some (.str "Erling Haaland"), some (.int 23), some (.str "Manchester City")⟩,
           ⟨some (.str ""), some (.int (-1)), some PyVal.none⟩] =
          .ok (([(⟨some (.str "Erling Haaland"), some (.int 23), some (.str "Manchester City")⟩ : PlayerDict),
                 ⟨some (.str ""), some (.int (-1)), some PyVal.none⟩].filter
                  (fun q => decide (mainValidate q = .ok ()))).map extractTuple)) :=
  ⟨by decide,
   c8_validation ⟨some (.str "Erling Haaland"), some (.int 23), some (.str "Manchester City")⟩
     [⟨some (.str "Erling Haaland"), some (.int 23), some (.str "Manchester City")⟩,
      ⟨some (.str ""), some (.int (-1)), some PyVal.none⟩]
     (by decide)⟩

/-! ## Claims about the harvest report (C1, C6) -/

theorem fetchAux_url (oracle : Nat → AsyncScraper.AttemptResult) (dur : Nat → Nat)
    (url : String) (mr : Nat) :
    ∀ (idxs sleeps : List Nat) (elapsed : Nat),
      (AsyncScraper.fetchAux oracle dur url mr idxs sleeps elapsed).url = url := by
  intro idxs
  induction idxs with
  | nil => intro sleeps elapsed; rfl
  | cons i rest ih =>
    intro sleeps elapsed
    cases h : oracle i with
    | response s body =>
      by_cases hs : s = 200
      · simp [AsyncScraper.fetchAux, h, hs]
      · simp only [AsyncScraper.fetchAux, h, if_neg hs]; exact ih _ _
    | timeout =>
      by_cases hi : i < mr - 1
      · simp only [AsyncScraper.fetchAux, h, if_pos hi]; exact ih _ _
      · simp only [AsyncScraper.fetchAux, h, if_neg hi]; exact ih _ _
    | exc m =>
      by_cases hi : i < mr - 1
      · simp only [AsyncScraper.fetchAux, h, if_pos hi]; exact ih _ _
      · simp only [AsyncScraper.fetchAux, h, if_neg hi]; exact ih _ _

theorem resultFor_url {α : Type} (oracles : String → Nat → AsyncScraper.AttemptResult)
    (durs : String → Nat → Nat) (mr : Nat) (s : String × AsyncScraper.SiteInfo α) :
    (AsyncScraper.resultFor oracles durs mr s).url = s.2.url :=
  fetchAux_url _ _ _ _ _ _ _

theorem findSite_self {α : Type} :
    ∀ (sites : List (String × AsyncScraper.SiteInfo α)),
      (sites.map (fun s => s.2.url)).Nodup →
      ∀ s ∈ sites, AsyncScraper.findSite sites s.2.url = some s := by
  intro sites
  induction sites with
  | nil => intro _ s hs; simp at hs
  | cons t rest ih =>
    intro hnd s hs
    rw [List.map_cons, List.nodup_cons] at hnd
    rcases List.mem_cons.mp hs with h | h
    · subst h
      exact List.find?_cons_of_pos _ (by simp)
    · rw [AsyncScraper.findSite, List.find?_cons_of_neg]
      · exact ih hnd.2 s h
      · simp only [beq_iff_eq]
        intro hcon
        exact hnd.1 (hcon ▸ List.mem_map_of_mem (fun s => s.2.url) h)

theorem aggregate_eq_filterMap {α : Type}
    (sitesAll : List (String × AsyncScraper.SiteInfo α))
    (f : (String × AsyncScraper.SiteInfo α) → AsyncScraper.FetchResult) :
    ∀ (sub : List (String × AsyncScraper.SiteInfo α)),
      (∀ s ∈ sub, AsyncScraper.findSite sitesAll (f s).url = some s) →
      AsyncScraper.aggregate sitesAll (sub.map f) =
        sub.filterMap (fun s => AsyncScraper.entryOf s (f s)) := by
  intro sub
  induction sub with
  | nil => intro _; rfl
  | cons s rest ih =>
    intro hfind
    have hs : AsyncScraper.findSite sitesAll (f s).url = some s := hfind s (by simp)
    have hrest : ∀ t ∈ rest, AsyncScraper.findSite sitesAll (f t).url = some t := by
      intro t ht; exact hfind t (by simp [ht])
    rw [List.map_cons, List.filterMap_cons]
    cases ho : (f s).outcome with
    | fail err =>
      have hent : AsyncScraper.entryOf s (f s) = Option.none := by
        simp [AsyncScraper.entryOf, ho]
      rw [hent]
      simp only [AsyncScraper.aggregate, ho]
      exact ih hrest
    | ok doc status =>
      cases hp : s.2.parseFn doc with
      | ok payload =>
        have hent : AsyncScraper.entryOf s (f s) =
            some (s.1, .parsed payload ⟨(f s).elapsed, some status⟩) := by
          simp [AsyncScraper.entryOf, ho, hp]
        rw [hent]
        simp only [AsyncScraper.aggregate, ho, hs, hp]
        rw [ih hrest]
      | error e =>
        have hent : AsyncScraper.entryOf s (f s) =
            some (s.1, .failed e ⟨(f s).elapsed, some status⟩) := by
          simp [AsyncScraper.entryOf, ho, hp]
        rw [hent]
        simp only [AsyncScraper.aggregate, ho, hs, hp]
        rw [ih hrest]

theorem scrape_all_eq_filterMap {α : Type}
    (sites : List (String × AsyncScraper.SiteInfo α))
    (oracles : String → Nat → AsyncScraper.AttemptResult) (durs : String → Nat → Nat)
    (mr : Nat) (hu : (sites.map (fun s => s.2.url)).Nodup) :
    AsyncScraper.scrape_all_soccer_sites sites oracles durs mr =
      sites.filterMap (fun s => AsyncScraper.entryOf s (AsyncScraper.resultFor oracles durs mr s)) := by
  rw [AsyncScraper.scrape_all_soccer_sites]
  exact aggregate_eq_filterMap sites _ sites
    (fun s hs => by rw [resultFor_url]; exact findSite_self sites hu s hs)

theorem filterMap_entryOf_keys {α : Type}
    (f : (String × AsyncScraper.SiteInfo α) → AsyncScraper.FetchResult) :
    ∀ (sites : List (String × AsyncScraper.SiteInfo α)),
      (sites.filterMap (fun s => AsyncScraper.entryOf s (f s))).map Prod.fst =
        (sites.filter (fun s => AsyncScraper.isOkResult (f s))).map Prod.fst := by
  intro sites
  induction sites with
  | nil => rfl
  | cons s rest ih =>
    rw [List.filterMap_cons, List.filter_cons]
    cases ho : (f s).outcome with
    | fail err =>
      simp only [AsyncScraper.entryOf, AsyncScraper.isOkResult, ho]
      simpa using ih
    | ok doc status =>
      simp only [AsyncScraper.entryOf, AsyncScraper.isOkResult, ho]
      cases s.2.parseFn doc <;> simpa using ih

/-- C1 counterexample.  A worklist of one source whose fetch always times out
yields an empty report: `scrape_all_soccer_sites` only logs failed fetches
(`else: logger.error(...)`) and never creates a report entry for them, so
`|report| = 0 ≠ 1 = |worklist|`. -/
theorem c1_counterexample :
    AsyncScraper.scrape_all_soccer_sites
        [("bbc_sport", ⟨"https://www.bbc.com/sport/football", fun _ => Except.ok ()⟩)]
        (fun _ _ => .timeout) (fun _ _ => 0) 3 = []
    ∧ [("bbc_sport",
        (⟨"https://www.bbc.com/sport/football", fun _ => Except.ok ()⟩ : AsyncScraper.SiteInfo Unit))].length = 1 :=
  ⟨rfl, rfl⟩

/-- C1, amended.  For a worklist of sources with distinct identifiers and
distinct URLs, the report of `scrape_all_soccer_sites` contains exactly one
entry — the source's normalized record or its extraction-failure detail —
for each source whose fetch succeeded, in worklist order; sources whose
fetch failed are omitted from the report, so `|report|` is the number of
successful fetches, not `|worklist|`.  (By contrast, the `scrape_url` flow
of `base_scraper.py` does record exactly one entry per worklist URL, fetch
failure included.) -/
theorem c1_coverage {α : Type} (sites : List (String × AsyncScraper.SiteInfo α))
    (oracles : String → Nat → AsyncScraper.AttemptResult) (durs : String → Nat → Nat)
    (mr : Nat) (hn : (sites.map Prod.fst).Nodup)
    (hu : (sites.map (fun s => s.2.url)).Nodup) :
    (AsyncScraper.scrape_all_soccer_sites sites oracles durs mr).map Prod.fst =
      (sites.filter (fun s => AsyncScraper.isOkResult (AsyncScraper.resultFor oracles durs mr s))).map Prod.fst
    ∧ ∀ (urls : List String) (fetchOf : String → BaseScraper.FetchResp),
        (BaseScraper.scrape_multiple_urls urls fetchOf).map Prod.fst = urls := by
  constructor
  · rw [scrape_all_eq_filterMap sites oracles durs mr hu]
    exact filterMap_entryOf_keys _ sites
  · intro urls fetchOf
    rw [BaseScraper.scrape_multiple_urls, List.map_map]
    simp [Function.comp_def]

/-- Witness for C1 (amended) on a two-source worklist where the first fetch
succeeds and the second times out: the report keys are exactly the sources
with successful fetches. -/
theorem c1_coverage_witness :
    ((["a", "b"] : List String).Nodup
      ∧ (["u1", "u2"] : List String).Nodup)
    ∧ ((AsyncScraper.scrape_all_soccer_sites
          [("a", ⟨"u1", fun _ => Except.ok ()⟩), ("b", ⟨"u2", fun _ => Except.ok ()⟩)]
          (fun u _ => if u = "u2" then .timeout else .response 200 ⟨Option.none, []⟩)
          (fun _ _ => 0) 3).map Prod.fst =
        ([("a", (⟨"u1", fun _ => Except.ok ()⟩ : AsyncScraper.SiteInfo Unit)),
          ("b", ⟨"u2", fun _ => Except.ok ()⟩)].filter
            (fun s => AsyncScraper.isOkResult
              (AsyncScraper.resultFor
                (fun u _ => if u = "u2" then .timeout else .response 200 ⟨Option.none, []⟩)
                (fun _ _ => 0) 3 s))).map Prod.fst
      ∧ ∀ (urls : List String) (fetchOf : String → BaseScraper.FetchResp),
          (BaseScraper.scrape_multiple_urls urls fetchOf).map Prod.fst = urls) :=
  ⟨⟨by decide, by decide⟩,
   c1_coverage
     [("a", ⟨"u1", fun _ => Except.ok ()⟩), ("b", ⟨"u2", fun _ => Except.ok ()⟩)]
     (fun u _ => if u = "u2" then .timeout else .response 200 ⟨Option.none, []⟩)
     (fun _ _ => 0) 3 (by simp) (by simp)⟩

/-- C6.  When a source's fetch succeeds but its extractor raises on the
payload, the exception is caught at the call site and converted into a
failure entry for that source carrying `str(e)`; and the whole report
decomposes source-by-source — each configured source's entry is a function
of nothing but its own parser and its own fetch result, so the records of
every other source in the run are unaffected by the failing extractor. -/
theorem c6_extractor_isolation {α : Type} (sites : List (String × AsyncScraper.SiteInfo α))
    (oracles : String → Nat → AsyncScraper.AttemptResult) (durs : String → Nat → Nat)
    (mr : Nat) (b : String) (info : AsyncScraper.SiteInfo α) (doc : Doc) (status : Nat)
    (e : String) (hu : (sites.map (fun s => s.2.url)).Nodup)
    (hb : (b, info) ∈ sites)
    (hok : (AsyncScraper.resultFor oracles durs mr (b, info)).outcome = .ok doc status)
    (hpe : info.parseFn doc = .error e) :
    (b, AsyncScraper.SiteEntry.failed e
        ⟨(AsyncScraper.resultFor oracles durs mr (b, info)).elapsed, some status⟩)
      ∈ AsyncScraper.scrape_all_soccer_sites sites oracles durs mr
    ∧ AsyncScraper.scrape_all_soccer_sites sites oracles durs mr =
        sites.filterMap (fun s => AsyncScraper.entryOf s (AsyncScraper.resultFor oracles durs mr s)) := by
  have hchar := scrape_all_eq_filterMap sites oracles durs mr hu
  refine ⟨?_, hchar⟩
  rw [hchar]
  rw [List.mem_filterMap]
  refine ⟨(b, info), hb, ?_⟩
  simp only [AsyncScraper.entryOf, hok, hpe]

/-- Witness for C6 on a two-source run where both fetches succeed and the
second source's parser raises. -/
theorem c6_extractor_isolation_witness :
    ((["v1", "v2"] : List String).Nodup
      ∧ ("goal", (⟨"v2", fun _ => Except.error "boom"⟩ : AsyncScraper.SiteInfo Unit))
          ∈ [("espn", (⟨"v1", fun _ => Except.ok ()⟩ : AsyncScraper.SiteInfo Unit)),
             ("goal", ⟨"v2", fun _ => Except.error "boom"⟩)]
      ∧ (AsyncScraper.resultFor (fun _ _ => .response 200 ⟨Option.none, []⟩) (fun _ _ => 0) 3
          ("goal", (⟨"v2", fun _ => Except.error "boom"⟩ : AsyncScraper.SiteInfo Unit))).outcome =
            .ok ⟨Option.none, []⟩ 200
      ∧ (⟨"v2", fun _ => Except.error "boom"⟩ : AsyncScraper.SiteInfo Unit).parseFn ⟨Option.none, []⟩ =
          Except.error "boom")
    ∧ (("goal", AsyncScraper.SiteEntry.failed "boom"
          ⟨(AsyncScraper.resultFor (fun _ _ => .response 200 ⟨Option.none, []⟩) (fun _ _ => 0) 3
              ("goal", (⟨"v2", fun _ => Except.error "boom"⟩ : AsyncScraper.SiteInfo Unit))).elapsed,
           some 200⟩)
        ∈ AsyncScraper.scrape_all_soccer_sites
            [("espn", ⟨"v1", fun _ => Except.ok ()⟩), ("goal", ⟨"v2", fun _ => Except.error "boom"⟩)]
            (fun _ _ => .response 200 ⟨Option.none, []⟩) (fun _ _ => 0) 3
      ∧ AsyncScraper.scrape_all_soccer_sites
            [("espn", ⟨"v1", fun _ => Except.ok ()⟩), ("goal", ⟨"v2", fun _ => Except.error "boom"⟩)]
            (fun _ _ => .response 200 ⟨Option.none, []⟩) (fun _ _ => 0) 3 =
          [("espn", (⟨"v1", fun _ => Except.ok ()⟩ : AsyncScraper.SiteInfo Unit)),
           ("goal", ⟨"v2", fun _ => Except.error "boom"⟩)].filterMap
            (fun s => AsyncScraper.entryOf s
              (AsyncScraper.resultFor (fun _ _ => .response 200 ⟨Option.none, []⟩) (fun _ _ => 0) 3 s))) :=
  ⟨⟨by decide, List.mem_cons_of_mem _ (List.mem_cons_self _ _), rfl, rfl⟩,
   c6_extractor_isolation
     [("espn", ⟨"v1", fun _ => Except.ok ()⟩), ("goal", ⟨"v2", fun _ => Except.error "boom"⟩)]
     (fun _ _ => .response 200 ⟨Option.none, []⟩) (fun _ _ => 0) 3
     "goal" ⟨"v2", fun _ => Except.error "boom"⟩ ⟨Option.none, []⟩ 200 "boom"
     (by simp) (List.mem_cons_of_mem _ (List.mem_cons_self _ _)) rfl rfl⟩

/-! ## Claims about the snapshot sink (C7) -/

theorem map_digitChar_inj :
    ∀ (l1 l2 : List Nat), (∀ x ∈ l1, x < 10) → (∀ x ∈ l2, x < 10) →
      l1.map Nat.digitChar = l2.map Nat.digitChar → l1 = l2 := by
  have hinj : ∀ a < 10, ∀ b < 10, Nat.digitChar a = Nat.digitChar b → a = b := by decide
  intro l1
  induction l1 with
  | nil =>
    intro l2 _ _ h
    cases l2 with
    | nil => rfl
    | cons b t => simp at h
  | cons a t ih =>
    intro l2 h1 h2 h
    cases l2 with
    | nil => simp at h
    | cons b t2 =>
      simp only [List.map_cons, List.cons.injEq] at h
      have ha : a = b := hinj a (h1 a (by simp)) b (h2 b (by simp)) h.1
      have ht : t = t2 := ih t2 (fun x hx => h1 x (by simp [hx]))
        (fun x hx => h2 x (by simp [hx])) h.2
      rw [ha, ht]

theorem decimalRepr_injective (m n : Nat)
    (h : AsyncScraper.decimalRepr m = AsyncScraper.decimalRepr n) : m = n := by
  have key : ∀ k : Nat, k ≠ 0 →
      ((Nat.digits 10 k).reverse.map Nat.digitChar ≠ ['0']) := by
    intro k hk hcon
    have hne : Nat.digits 10 k ≠ [] := Nat.digits_ne_nil_iff_ne_zero.mpr hk
    have hrev : (Nat.digits 10 k).reverse = [0] := by
      have hlt : ∀ x ∈ (Nat.digits 10 k).reverse, x < 10 := by
        intro x hx
        exact Nat.digits_lt_base (by norm_num) (List.mem_reverse.mp hx)
      have : (Nat.digits 10 k).reverse.map Nat.digitChar = [0].map Nat.digitChar := by
        simpa using hcon
      exact map_digitChar_inj _ _ hlt (by simp) this
    have hdig : Nat.digits 10 k = [0] := by
      have := congrArg List.reverse hrev
      simpa using this
    have hlast := Nat.getLast_digit_ne_zero 10 hk
    have h5 : (Nat.digits 10 k).getLast? = some 0 := by rw [hdig]; rfl
    rw [List.getLast?_eq_getLast _ hne, Option.some.injEq] at h5
    exact hlast h5
  by_cases hm : m = 0 <;> by_cases hn : n = 0
  · rw [hm, hn]
  · exfalso
    rw [AsyncScraper.decimalRepr, AsyncScraper.decimalRepr, if_pos hm, if_neg hn] at h
    exact key n hn (by simpa using (congrArg String.data h).symm)
  · exfalso
    rw [AsyncScraper.decimalRepr, AsyncScraper.decimalRepr, if_neg hm, if_pos hn] at h
    exact key m hm (by simpa using congrArg String.data h)
  · rw [AsyncScraper.decimalRepr, AsyncScraper.decimalRepr, if_neg hm, if_neg hn] at h
    have hd := congrArg String.data h
    simp only at hd
    have hlt1 : ∀ x ∈ (Nat.digits 10 m).reverse, x < 10 := by
      intro x hx
      exact Nat.digits_lt_base (by norm_num) (List.mem_reverse.mp hx)
    have hlt2 : ∀ x ∈ (Nat.digits 10 n).reverse, x < 10 := by
      intro x hx
      exact Nat.digits_lt_base (by norm_num) (List.mem_reverse.mp hx)
    have hrev := map_digitChar_inj _ _ hlt1 hlt2 hd
    have hdig : Nat.digits 10 m = Nat.digits 10 n := by
      have := congrArg List.reverse hrev
      simpa using this
    calc m = Nat.ofDigits 10 (Nat.digits 10 m) := (Nat.ofDigits_digits 10 m).symm
      _ = Nat.ofDigits 10 (Nat.digits 10 n) := by rw [hdig]
      _ = n := Nat.ofDigits_digits 10 n

theorem append_middle_inj (p q x y : String) (h : p ++ x ++ q = p ++ y ++ q) : x = y := by
  have hd := congrArg String.data h
  rw [String.data_append, String.data_append, String.data_append, String.data_append] at hd
  have h1 := (List.append_inj' hd rfl).1
  exact String.ext (List.append_cancel_left h1)

/-- C7 counterexample.  The claim, read against `base_scraper.py`'s
`save_results_to_json`, is false: that sink writes with `indent=4` (not
2-space indentation), and its default filename is the fixed constant
`"results.json"` in the current directory — no timestamp is involved, so a
second run overwrites the first run's snapshot. -/
theorem c7_counterexample :
    BaseScraper.save_indent = 4
    ∧ BaseScraper.save_indent ≠ 2
    ∧ BaseScraper.save_filename Option.none = "results.json" := by
  decide

/-- C7, amended.  The async scraper's `save_results_to_json` writes a UTF-8
JSON snapshot with 2-space indentation under the `data/scraping_results`
directory, and when the caller supplies no filename it names the file
`soccer_scraping_results_{timestamp}.json`, so runs with distinct integer
timestamps never collide (runs that share the same whole-second timestamp
produce the same name); the base scraper's `save_results_to_json` instead
uses `indent=4` and the fixed default filename `"results.json"`. -/
theorem c7_snapshot :
    AsyncScraper.save_indent = 2
    ∧ AsyncScraper.save_encoding = "utf-8"
    ∧ AsyncScraper.save_dir = "data/scraping_results"
    ∧ (∀ t, AsyncScraper.save_filename Option.none t =
        "soccer_scraping_results_" ++ AsyncScraper.decimalRepr t ++ ".json")
    ∧ (∀ t1 t2 : Nat, t1 ≠ t2 →
        AsyncScraper.save_filename Option.none t1 ≠ AsyncScraper.save_filename Option.none t2)
    ∧ (∀ (f : String) (t : Nat), AsyncScraper.save_filename (some f) t = f)
    ∧ BaseScraper.save_indent = 4
    ∧ (∀ fn? : Option String, BaseScraper.save_filename fn? = fn?.getD "results.json") := by
  refine ⟨rfl, rfl, rfl, fun t => rfl, ?_, fun f t => rfl, rfl, fun fn? => rfl⟩
  intro t1 t2 hne hcon
  apply hne
  apply decimalRepr_injective
  exact append_middle_inj "soccer_scraping_results_" ".json" _ _ hcon

/-- Witness for C7 (amended): two runs one second apart get distinct default
filenames. -/
theorem c7_snapshot_witness :
    (1 : Nat) ≠ 2
    ∧ AsyncScraper.save_filename Option.none 1 ≠ AsyncScraper.save_filename Option.none 2 :=
  ⟨by decide, c7_snapshot.2.2.2.2.1 1 2 (by decide)⟩

/-! ## The concurrency-cap claim (C9) -/

/-- C9.  With concurrency cap `C` and a worklist of `n > C` URLs, the
semaphore discipline of `scrape_multiple_urls` never lets more than `C`
fetches be in flight in any reachable scheduler state; and the only way a
task can enter the fetching phase in one step is from the delaying phase —
every fetch is immediately preceded by the task's inter-dispatch delay,
which itself runs inside the semaphore. -/
theorem c9_limiter (C n : Nat) (hcap : C < n) (ts : List Phase)
    (hr : LimiterReachable C n ts) :
    fetchingCount ts ≤ C
    ∧ ∀ (ts' : List Phase) (i : Nat), LimiterStep C ts ts' →
        ts[i]? ≠ some Phase.fetching → ts'[i]? = some Phase.fetching →
        ts[i]? = some Phase.delaying := by
  constructor
  · have h1 : fetchingCount ts ≤ holders ts := by
      apply List.countP_mono_left
      intro p _ hp
      simp only [decide_eq_true_eq] at hp
      simp [hp]
    exact le_trans h1 (holders_le_of_reachable hr)
  · intro ts' i hstep h1 h2
    cases hstep with
    | acquire j hj hc =>
      by_cases hij : j = i
      · subst hij
        obtain ⟨hlt, _⟩ := List.getElem?_eq_some.mp hj
        rw [List.getElem?_set_self hlt] at h2
        simp at h2
      · rw [List.getElem?_set_ne hij] at h2
        exact absurd h2 h1
    | startFetch j hj =>
      by_cases hij : j = i
      · subst hij
        exact hj
      · rw [List.getElem?_set_ne hij] at h2
        exact absurd h2 h1
    | finish j hj =>
      by_cases hij : j = i
      · subst hij
        obtain ⟨hlt, _⟩ := List.getElem?_eq_some.mp hj
        rw [List.getElem?_set_self hlt] at h2
        simp at h2
      · rw [List.getElem?_set_ne hij] at h2
        exact absurd h2 h1

/-- Witness for C9 with cap 1 and a two-URL worklist, at the initial
reachable state. -/
theorem c9_limiter_witness :
    (1 < 2
      ∧ LimiterReachable 1 2 (List.replicate 2 Phase.waiting))
    ∧ (fetchingCount (List.replicate 2 Phase.waiting) ≤ 1
      ∧ ∀ (ts' : List Phase) (i : Nat),
          LimiterStep 1 (List.replicate 2 Phase.waiting) ts' →
          (List.replicate 2 Phase.waiting)[i]? ≠ some Phase.fetching →
          ts'[i]? = some Phase.fetching →
          (List.replicate 2 Phase.waiting)[i]? = some Phase.delaying) :=
  ⟨⟨by decide, Relation.ReflTransGen.refl⟩,
   c9_limiter 1 2 (by decide) (List.replicate 2 Phase.waiting) Relation.ReflTransGen.refl⟩

end SoccerScrap
